import Mathlib

/-!
Shallow embedding of `src/app.py`, a small Flask service that ingests
submission records into a Postgres table `feedback(id SERIAL PRIMARY KEY,
username TEXT NOT NULL, userId BIGINT UNIQUE NOT NULL)` and serves three
endpoints (`/api/submit`, `/api/stats`, `/api/list`) behind an optional
shared-secret header check.

The database is modelled as a list of rows together with the next SERIAL
value; the SQL statements executed by the handlers are modelled by their
semantics on that state (INSERT under the UNIQUE constraint, COUNT(*),
SELECT ... ORDER BY id DESC LIMIT 100).  Backend failures other than the
uniqueness violation originate outside the repository (psycopg2 / the
Postgres server), so each handler takes a fault oracle `fault : Option
String`: `some msg` means the backend raises a non-integrity error during
the transaction body, `none` means the backend behaves normally.
-/

namespace App

/-- JSON scalar values as they appear in a parsed request body
(`request.get_json()` in `src/app.py`). -/
inductive JVal where
  | null
  | bool (b : Bool)
  | num (n : Int)
  | str (s : String)
deriving DecidableEq, Repr

/-- Python truthiness of a JSON value: `None`, `False`, `0` and `""` are
falsy, everything else is truthy.  Used by the `if not user_id or not
username` check at `src/app.py:93`. -/
def truthy : JVal → Bool
  | .null => false
  | .bool b => b
  | .num n => decide (n ≠ 0)
  | .str s => decide (s ≠ "")

/-- Python truthiness of `dict.get`: a missing key yields `None`, which is
falsy. -/
def truthyOpt : Option JVal → Bool
  | none => false
  | some v => truthy v

/-- Lookup in a parsed JSON object, modelling `data.get(key)`
(`src/app.py:90-91`). -/
def dictGet (data : List (String × JVal)) (k : String) : Option JVal :=
  data.lookup k

/-- One row of the `feedback` table: the columns selected and stored by
`src/app.py` are exactly `id`, `username` and `userId`
(`src/app.py:42-46`, `src/app.py:157`). -/
structure Row where
  id : Nat
  username : JVal
  userId : JVal
deriving DecidableEq, Repr

/-- State of the `feedback` table: the stored rows (in insertion order,
i.e. ascending `id`) and the next value of the SERIAL `id` column. -/
structure DB where
  rows : List Row
  nextId : Nat
deriving DecidableEq, Repr

/-- The empty table right after schema creation; SERIAL starts at 1. -/
def initDB : DB := { rows := [], nextId := 1 }

/-- Errors raised by the storage backend: `integrityError` models
`psycopg2.IntegrityError` (caught at `src/app.py:111`), `storageError`
models any other exception from the backend (caught at `src/app.py:119`). -/
inductive DbErr where
  | integrityError
  | storageError (msg : String)
deriving DecidableEq, Repr

/-- Whether a row with this `userId` already exists, i.e. whether the
UNIQUE constraint on `userId` (`src/app.py:45`) rejects an insert. -/
def dupUserId (db : DB) (uid : JVal) : Bool :=
  db.rows.any (fun r => r.userId == uid)

/-- Events on the psycopg2 connection, in the order `get_db` performs
them (`src/app.py:24-34`). -/
inductive ConnEvent where
  | connect
  | commit
  | rollback
  | close
deriving DecidableEq, Repr

/-- The `get_db` context manager (`src/app.py:24-34`): connect, run the
body, commit on normal return, roll back and re-raise on any exception,
and close the connection on every exit path.  The body is a state
transformer on the table; a rollback discards its tentative state.  The
connection-event trace is returned so the resource discipline is visible. -/
def get_db {α : Type} (db : DB) (body : DB → Except DbErr (α × DB)) :
    Except DbErr α × DB × List ConnEvent :=
  match body db with
  | .ok (a, db2) => (.ok a, db2, [.connect, .commit, .close])
  | .error e => (.error e, db, [.connect, .rollback, .close])

/-- Transaction body of the submit handler (`src/app.py:101-106`): the
INSERT under the UNIQUE constraint on `userId`.  A backend fault (if the
oracle provides one) raises a non-integrity exception; otherwise a
duplicate `userId` raises `IntegrityError` and a fresh `userId` appends
one row carrying the next SERIAL `id`. -/
def insertFeedback (username uid : JVal) (fault : Option String) (db : DB) :
    Except DbErr (Unit × DB) :=
  match fault with
  | some m => .error (.storageError m)
  | none =>
    if dupUserId db uid then .error .integrityError
    else .ok ((), { rows := db.rows ++ [{ id := db.nextId, username := username, userId := uid }],
                    nextId := db.nextId + 1 })

/-- Python truthiness of the configured secret `API_SECRET =
os.environ.get("API_SECRET")`: `None` (absent) and `""` are falsy. -/
def secretTruthy : Option String → Bool
  | none => false
  | some s => decide (s ≠ "")

/-- The authorization gate shared by all three endpoints
(`src/app.py:73-74`, `130-131`, `150-151`): the request is rejected iff
the configured secret is truthy and the `X-API-Secret` header differs
from it (`None != secret` is true in Python, matching `Option` equality). -/
def authFails (apiSecret hdr : Option String) : Bool :=
  secretTruthy apiSecret && decide (hdr ≠ apiSecret)

/-- An inbound HTTP request to `/api/submit`: the `X-API-Secret` header,
whether the content type is JSON (`request.is_json`), and the parse
result of the body (`none` models `request.get_json()` raising,
`src/app.py:83-87`). -/
structure Request where
  xApiSecret : Option String
  isJson : Bool
  parsedJson : Option (List (String × JVal))
deriving DecidableEq, Repr

/-- Response of the submit handler: the JSON body `{"success": ...}` with
its optional `"reason"` field, and the HTTP status code. -/
structure SubmitResp where
  success : Bool
  reason : Option String
  status : Nat
deriving DecidableEq, Repr

/-- The `/api/submit` handler (`src/app.py:65-125`): authorization gate,
content-type check, JSON parsing, field validation, then the INSERT
inside a `get_db` transaction, with `IntegrityError` mapped to
`already_submitted`/200 and any other exception to `internal_error`/500.
Returns the response together with the table state after the request. -/
def submit (apiSecret : Option String) (req : Request) (db : DB)
    (fault : Option String) : SubmitResp × DB :=
  if authFails apiSecret req.xApiSecret then
    ({ success := false, reason := some "unauthorized", status := 401 }, db)
  else if !req.isJson then
    ({ success := false, reason := some "invalid_content_type", status := 400 }, db)
  else
    match req.parsedJson with
    | none => ({ success := false, reason := some "invalid_json", status := 400 }, db)
    | some data =>
      let user_id := dictGet data "userId"
      let username := dictGet data "username"
      if !truthyOpt user_id || !truthyOpt username then
        ({ success := false, reason := some "missing_required_fields", status := 400 }, db)
      else
        match get_db db (insertFeedback (username.getD .null) (user_id.getD .null) fault) with
        | (.ok _, db2, _) =>
          ({ success := true, reason := none, status := 200 }, db2)
        | (.error .integrityError, db2, _) =>
          ({ success := false, reason := some "already_submitted", status := 200 }, db2)
        | (.error (.storageError _), db2, _) =>
          ({ success := false, reason := some "internal_error", status := 500 }, db2)

/-- Response body of the `/api/stats` handler: either
`{"total_submissions": n}` or `{"error": msg}`. -/
inductive StatsBody where
  | totals (total_submissions : Nat)
  | err (error : String)
deriving DecidableEq, Repr

/-- Transaction body of the stats handler (`src/app.py:136-138`):
`SELECT COUNT(*) FROM feedback`, or a backend fault. -/
def countAll (fault : Option String) (db : DB) : Except DbErr (Nat × DB) :=
  match fault with
  | some m => .error (.storageError m)
  | none => .ok (db.rows.length, db)

/-- The `/api/stats` handler (`src/app.py:127-145`): authorization gate,
then COUNT(*) inside a `get_db` transaction, mapping any exception to
`internal_error`/500. -/
def stats (apiSecret hdr : Option String) (db : DB) (fault : Option String) :
    StatsBody × Nat :=
  if authFails apiSecret hdr then (.err "unauthorized", 401)
  else
    match get_db db (countAll fault) with
    | (.ok n, _, _) => (.totals n, 200)
    | (.error _, _, _) => (.err "internal_error", 500)

/-- Response body of the `/api/list` handler: either
`{"submissions": [...], "count": n}` or `{"error": msg}`. -/
inductive ListBody where
  | page (submissions : List Row) (count : Nat)
  | err (error : String)
deriving DecidableEq, Repr

/-- Insert a row into a list kept in descending `id` order (auxiliary for
the ORDER BY semantics). -/
def insertDesc (r : Row) : List Row → List Row
  | [] => [r]
  | x :: xs => if x.id ≤ r.id then r :: x :: xs else x :: insertDesc r xs

/-- Sort rows by `id` descending, the semantics of `ORDER BY id DESC`. -/
def sortByIdDesc : List Row → List Row
  | [] => []
  | x :: xs => insertDesc x (sortByIdDesc xs)

/-- Transaction body of the list handler (`src/app.py:157-158`):
`SELECT id, username, userId FROM feedback ORDER BY id DESC LIMIT 100`,
or a backend fault. -/
def listRecent (fault : Option String) (db : DB) :
    Except DbErr (List Row × DB) :=
  match fault with
  | some m => .error (.storageError m)
  | none => .ok ((sortByIdDesc db.rows).take 100, db)

/-- The `/api/list` handler (`src/app.py:147-166`): authorization gate,
then the SELECT inside a `get_db` transaction, returning the rows and
their count, mapping any exception to `internal_error`/500. -/
def list_submissions (apiSecret hdr : Option String) (db : DB)
    (fault : Option String) : ListBody × Nat :=
  if authFails apiSecret hdr then (.err "unauthorized", 401)
  else
    match get_db db (listRecent fault) with
    | (.ok rs, _, _) => (.page rs rs.length, 200)
    | (.error _, _, _) => (.err "internal_error", 500)

/-- Schema state: whether the `feedback` table and the `idx_userId`
index exist. -/
structure Schema where
  feedbackTable : Bool
  idxUserId : Bool
deriving DecidableEq, Repr

/-- Semantics of `CREATE TABLE IF NOT EXISTS feedback ...`
(`src/app.py:41-47`). -/
def createTableIfNotExists (s : Schema) : Schema :=
  if s.feedbackTable then s else { s with feedbackTable := true }

/-- Semantics of `CREATE INDEX IF NOT EXISTS idx_userId ON
feedback(userId)` (`src/app.py:49-51`). -/
def createIndexIfNotExists (s : Schema) : Schema :=
  if s.idxUserId then s else { s with idxUserId := true }

/-- The `init_db` schema migration (`src/app.py:37-52`): create the table
if absent, then the index if absent. -/
def init_db (s : Schema) : Schema :=
  createIndexIfNotExists (createTableIfNotExists s)

/-- Where, if anywhere, the backend fails while `init_db` runs its two
DDL statements. -/
inductive InitFault where
  | ok
  | failTable
  | failIndex
deriving DecidableEq, Repr

/-- Running `init_db` against a possibly failing backend: the schema
reached when the run stops, and whether an exception was raised. -/
def runInit (s : Schema) : InitFault → Schema × Bool
  | .ok => (init_db s, false)
  | .failTable => (s, true)
  | .failIndex => (createTableIfNotExists s, true)

/-- The module-level startup block (`src/app.py:54-58`): `init_db()` in a
`try`, any exception logged and swallowed.  Returns the resulting schema
and whether the process keeps serving (the Flask handlers stay
registered; the `except` clause never re-raises). -/
def startup (s : Schema) (o : InitFault) : Schema × Bool :=
  ((runInit s o).1, true)

/-- Database states reachable from the freshly created table through the
service: `/api/submit` is the only write path in `src/app.py`. -/
inductive Reachable : DB → Prop where
  | init : Reachable initDB
  | step (apiSecret : Option String) (req : Request) (fault : Option String)
      {db : DB} : Reachable db → Reachable (submit apiSecret req db fault).2

/-- Structural invariant of the `feedback` table maintained by the service:
`id` values are strictly increasing along the list (and below the next
SERIAL value), and no two rows share a `userId`. -/
def Inv (db : DB) : Prop :=
  db.rows.Pairwise (fun a b => a.id < b.id) ∧
  (∀ r ∈ db.rows, r.id < db.nextId) ∧
  db.rows.Pairwise (fun a b => a.userId ≠ b.userId)

/-- Concrete fixture: a well-formed submit request for userId 42. -/
def reqAlice : Request :=
  { xApiSecret := some "s", isJson := true,
    parsedJson := some [("userId", .num 42), ("username", .str "Alice")] }

/-- Concrete fixture: a table already holding a record for userId 42. -/
def db42 : DB :=
  { rows := [{ id := 1, username := .str "Alice", userId := .num 42 }], nextId := 2 }

/-- Concrete fixture: a repeat request for userId 42 carrying an empty
(falsy) username. -/
def reqEmptyName : Request :=
  { xApiSecret := none, isJson := true,
    parsedJson := some [("userId", .num 42), ("username", .str "")] }

/-- Concrete fixture: a repeat request for userId 42 with a different,
truthy username. -/
def reqBob : Request :=
  { xApiSecret := some "s", isJson := true,
    parsedJson := some [("userId", .num 42), ("username", .str "Bob")] }

/-- Concrete fixture: a request whose `userId` is the falsy value `0`. -/
def reqZeroId : Request :=
  { xApiSecret := none, isJson := true,
    parsedJson := some [("userId", .num 0), ("username", .str "Alice")] }

/-- Concrete fixture: the table state after one successful submission. -/
def db1 : DB := (submit (some "s") reqAlice initDB none).2

/-- Truthiness transfers from an optional JSON value to its `getD .null`
unwrapping. -/
theorem truthyOpt_getD {x : Option JVal} (h : truthyOpt x = true) :
    truthy (x.getD .null) = true := by
  cases x with
  | none => simp [truthyOpt] at h
  | some v => simpa [truthyOpt] using h

/-- Case analysis on the submit handler: either the request passes every
check against a fault-free backend and a fresh `userId`, in which case
exactly one row with the next SERIAL `id` is appended and the response is
success/200, or the response carries `success = false` and the table is
left unchanged. -/
theorem submit_spec (a : Option String) (req : Request) (db : DB) (f : Option String) :
    (∃ uname uid, truthy uname = true ∧ truthy uid = true ∧ dupUserId db uid = false ∧
      submit a req db f =
        ({ success := true, reason := none, status := 200 },
         { rows := db.rows ++ [{ id := db.nextId, username := uname, userId := uid }],
           nextId := db.nextId + 1 })) ∨
    ((submit a req db f).1.success = false ∧ (submit a req db f).2 = db) := by
  unfold submit
  split
  · right; simp
  · split
    · right; simp
    · split
      · right; simp
      · rename_i data heq
        by_cases h1 : truthyOpt (dictGet data "userId") = true
        · by_cases h2 : truthyOpt (dictGet data "username") = true
          · cases f with
            | some m =>
              right; simp [h1, h2, get_db, insertFeedback]
            | none =>
              by_cases hdup : dupUserId db ((dictGet data "userId").getD .null) = true
              · right; simp [h1, h2, get_db, insertFeedback, hdup]
              · have hdup2 : dupUserId db ((dictGet data "userId").getD .null) = false := by
                  simpa using hdup
                left
                refine ⟨(dictGet data "username").getD .null,
                  (dictGet data "userId").getD .null,
                  truthyOpt_getD h2, truthyOpt_getD h1, hdup2, ?_⟩
                simp [h1, h2, get_db, insertFeedback, hdup2]
          · have h2f : truthyOpt (dictGet data "username") = false := by simpa using h2
            right; simp [h2f]
        · have h1f : truthyOpt (dictGet data "userId") = false := by simpa using h1
          right; simp [h1f]

/-- An authorized, well-formed submit request against a backend that
raises a non-integrity error yields `internal_error`/500 and leaves the
table unchanged. -/
theorem submit_valid_fault {apiSecret : Option String} {req : Request} {db : DB}
    {data : List (String × JVal)} {uid uname : JVal} (m : String)
    (hauth : authFails apiSecret req.xApiSecret = false)
    (hjson : req.isJson = true)
    (hparse : req.parsedJson = some data)
    (huid : dictGet data "userId" = some uid)
    (hun : dictGet data "username" = some uname)
    (htuid : truthy uid = true)
    (htun : truthy uname = true) :
    submit apiSecret req db (some m) =
      ({ success := false, reason := some "internal_error", status := 500 }, db) := by
  simp [submit, hauth, hjson, hparse, huid, hun, truthyOpt, htuid, htun,
    get_db, insertFeedback]

/-- An authorized, well-formed submit request whose `userId` is already
stored hits the UNIQUE constraint and yields `already_submitted`/200 with
the table unchanged. -/
theorem submit_valid_dup {apiSecret : Option String} {req : Request} {db : DB}
    {data : List (String × JVal)} {uid uname : JVal}
    (hauth : authFails apiSecret req.xApiSecret = false)
    (hjson : req.isJson = true)
    (hparse : req.parsedJson = some data)
    (huid : dictGet data "userId" = some uid)
    (hun : dictGet data "username" = some uname)
    (htuid : truthy uid = true)
    (htun : truthy uname = true)
    (hdup : dupUserId db uid = true) :
    submit apiSecret req db none =
      ({ success := false, reason := some "already_submitted", status := 200 }, db) := by
  simp [submit, hauth, hjson, hparse, huid, hun, truthyOpt, htuid, htun,
    get_db, insertFeedback, hdup]

/-- An authorized, well-formed submit request with a fresh `userId`
against a fault-free backend appends exactly one row and yields
success/200. -/
theorem submit_valid_fresh {apiSecret : Option String} {req : Request} {db : DB}
    {data : List (String × JVal)} {uid uname : JVal}
    (hauth : authFails apiSecret req.xApiSecret = false)
    (hjson : req.isJson = true)
    (hparse : req.parsedJson = some data)
    (huid : dictGet data "userId" = some uid)
    (hun : dictGet data "username" = some uname)
    (htuid : truthy uid = true)
    (htun : truthy uname = true)
    (hdup : dupUserId db uid = false) :
    submit apiSecret req db none =
      ({ success := true, reason := none, status := 200 },
       { rows := db.rows ++ [{ id := db.nextId, username := uname, userId := uid }],
         nextId := db.nextId + 1 }) := by
  simp [submit, hauth, hjson, hparse, huid, hun, truthyOpt, htuid, htun,
    get_db, insertFeedback, hdup]

/-- The UNIQUE-constraint check fails to fire exactly when no stored row
carries the candidate `userId`. -/
theorem dupUserId_false_iff {db : DB} {uid : JVal} :
    dupUserId db uid = false ↔ ∀ r ∈ db.rows, r.userId ≠ uid := by
  simp [dupUserId, List.any_eq_true]

/-- One submit request preserves the table invariant. -/
theorem Inv_submit (a : Option String) (req : Request) (f : Option String)
    {db : DB} (h : Inv db) : Inv (submit a req db f).2 := by
  rcases submit_spec a req db f with ⟨uname, uid, _, _, hdup, heq⟩ | ⟨_, heq⟩
  · rw [heq]
    obtain ⟨h1, h2, h3⟩ := h
    refine ⟨?_, ?_, ?_⟩
    · rw [List.pairwise_append]
      refine ⟨h1, List.pairwise_singleton .., ?_⟩
      intro x hx b hb
      rw [List.mem_singleton] at hb
      subst hb
      exact h2 x hx
    · intro r hr
      rw [List.mem_append] at hr
      rcases hr with hr | hr
      · exact Nat.lt_succ_of_lt (h2 r hr)
      · rw [List.mem_singleton] at hr; subst hr; exact Nat.lt_succ_self _
    · rw [List.pairwise_append]
      refine ⟨h3, List.pairwise_singleton .., ?_⟩
      intro x hx b hb
      rw [List.mem_singleton] at hb
      subst hb
      exact dupUserId_false_iff.1 hdup x hx
  · rw [heq]; exact h

/-- Every reachable table state satisfies the invariant. -/
theorem reachable_inv {db : DB} (h : Reachable db) : Inv db := by
  induction h with
  | init => exact ⟨List.Pairwise.nil, by simp [initDB], List.Pairwise.nil⟩
  | step a req f _ ih => exact Inv_submit a req f ih

/-- Descending insertion permutes: the result holds the new row plus the
old ones. -/
theorem insertDesc_perm (r : Row) (l : List Row) :
    List.Perm (insertDesc r l) (r :: l) := by
  induction l with
  | nil => exact List.Perm.refl _
  | cons x xs ih =>
    by_cases hx : x.id ≤ r.id
    · simp [insertDesc, hx]
    · simp only [insertDesc, if_neg hx]
      exact (ih.cons x).trans (List.Perm.swap r x xs)

/-- Sorting by descending `id` permutes the row list. -/
theorem sortByIdDesc_perm (l : List Row) : List.Perm (sortByIdDesc l) l := by
  induction l with
  | nil => exact List.Perm.refl _
  | cons x xs ih => exact (insertDesc_perm x _).trans (ih.cons x)

/-- Descending insertion preserves descending order. -/
theorem insertDesc_sorted {r : Row} {l : List Row}
    (h : l.Pairwise (fun a b => b.id ≤ a.id)) :
    (insertDesc r l).Pairwise (fun a b => b.id ≤ a.id) := by
  induction l with
  | nil => simp [insertDesc]
  | cons x xs ih =>
    rcases List.pairwise_cons.1 h with ⟨hx, hxs⟩
    by_cases hle : x.id ≤ r.id
    · simp only [insertDesc, if_pos hle]
      refine List.pairwise_cons.2 ⟨?_, h⟩
      intro b hb
      rcases List.mem_cons.1 hb with rfl | hbxs
      · exact hle
      · exact le_trans (hx b hbxs) hle
    · simp only [insertDesc, if_neg hle]
      refine List.pairwise_cons.2 ⟨?_, ih hxs⟩
      intro b hb
      have hb2 : b ∈ r :: xs := (insertDesc_perm r xs).mem_iff.1 hb
      rcases List.mem_cons.1 hb2 with rfl | hbxs
      · exact le_of_not_le hle
      · exact hx b hbxs

/-- The ORDER BY id DESC model produces a weakly descending list. -/
theorem sortByIdDesc_sorted (l : List Row) :
    (sortByIdDesc l).Pairwise (fun a b => b.id ≤ a.id) := by
  induction l with
  | nil => simp [sortByIdDesc]
  | cons x xs ih => exact insertDesc_sorted ih

/-- With pairwise-distinct `id` values the descending sort is strict. -/
theorem sortByIdDesc_strict {l : List Row}
    (hne : l.Pairwise (fun a b => a.id ≠ b.id)) :
    (sortByIdDesc l).Pairwise (fun a b => b.id < a.id) := by
  have hs := sortByIdDesc_sorted l
  have hne2 : (sortByIdDesc l).Pairwise (fun a b => a.id ≠ b.id) :=
    (List.Perm.pairwise_iff (fun h => Ne.symm h) (sortByIdDesc_perm l)).2 hne
  exact (hs.and hne2).imp (fun h => lt_of_le_of_ne h.1 (Ne.symm h.2))

/-- C1: In every reachable database state at most one feedback record
exists per `userId` (no sequence of submit calls ever produces two rows
with the same `userId`), and the first submit call with a valid
`(userId, username)` pair — authorized, JSON, both fields truthy, the
`userId` not yet stored, no backend fault — inserts exactly one row and
returns `{"success": true}` with HTTP 200. -/
theorem C1_at_most_one_record_per_userId {db : DB} (hdb : Reachable db)
    (apiSecret : Option String) (req : Request) (data : List (String × JVal))
    (uid uname : JVal)
    (hauth : authFails apiSecret req.xApiSecret = false)
    (hjson : req.isJson = true)
    (hparse : req.parsedJson = some data)
    (huid : dictGet data "userId" = some uid)
    (hun : dictGet data "username" = some uname)
    (htuid : truthy uid = true)
    (htun : truthy uname = true)
    (hfresh : dupUserId db uid = false) :
    db.rows.Pairwise (fun a b => a.userId ≠ b.userId) ∧
    submit apiSecret req db none =
      ({ success := true, reason := none, status := 200 },
       { rows := db.rows ++ [{ id := db.nextId, username := uname, userId := uid }],
         nextId := db.nextId + 1 }) :=
  ⟨(reachable_inv hdb).2.2,
   submit_valid_fresh hauth hjson hparse huid hun htuid htun hfresh⟩

/-- C1 witness: the first submission of userId 42 into the empty table
appends exactly one row and returns success/200. -/
theorem C1_witness :
    initDB.rows.Pairwise (fun a b => a.userId ≠ b.userId) ∧
    submit (some "s") reqAlice initDB none =
      ({ success := true, reason := none, status := 200 },
       { rows := initDB.rows ++
           [{ id := initDB.nextId, username := .str "Alice", userId := .num 42 }],
         nextId := initDB.nextId + 1 }) :=
  C1_at_most_one_record_per_userId Reachable.init (some "s") reqAlice
    [("userId", .num 42), ("username", .str "Alice")] (.num 42) (.str "Alice")
    (by decide) rfl rfl (by decide) (by decide) (by decide) (by decide) (by decide)

/-- C2 counterexample: with userId 42 already stored, a repeat submit call
for userId 42 whose username is the empty string returns
`missing_required_fields`/400, not `already_submitted`/200 — the claim
fails for falsy usernames because field validation runs first. -/
theorem C2_counterexample :
    (submit none reqEmptyName db42 none).1 =
      { success := false, reason := some "missing_required_fields", status := 400 } ∧
    (submit none reqEmptyName db42 none).1 ≠
      { success := false, reason := some "already_submitted", status := 200 } := by
  decide

/-- C2 (amended): for every `userId` already stored, a repeat authorized
JSON submit call with that `userId` and any truthy username returns
`{"success": false, "reason": "already_submitted"}` with HTTP 200 and
leaves the table — in particular the stored username — unchanged. -/
theorem C2_repeat_submit_rejected {apiSecret : Option String} {req : Request}
    {db : DB} {data : List (String × JVal)} {uid uname : JVal}
    (hauth : authFails apiSecret req.xApiSecret = false)
    (hjson : req.isJson = true)
    (hparse : req.parsedJson = some data)
    (huid : dictGet data "userId" = some uid)
    (hun : dictGet data "username" = some uname)
    (htuid : truthy uid = true)
    (htun : truthy uname = true)
    (hdup : dupUserId db uid = true) :
    submit apiSecret req db none =
      ({ success := false, reason := some "already_submitted", status := 200 }, db) :=
  submit_valid_dup hauth hjson hparse huid hun htuid htun hdup

/-- C2 witness: resubmitting userId 42 with the different username "Bob"
returns `already_submitted`/200 and leaves the stored "Alice" row intact. -/
theorem C2_witness :
    submit (some "s") reqBob db42 none =
      ({ success := false, reason := some "already_submitted", status := 200 }, db42) :=
  @C2_repeat_submit_rejected (some "s") reqBob db42
    [("userId", .num 42), ("username", .str "Bob")] (.num 42) (.str "Bob")
    (by decide) rfl rfl (by decide) (by decide) (by decide) (by decide) (by decide)

/-- C3: when a non-empty shared secret is configured, every request whose
`X-API-Secret` header is absent or different receives HTTP 401 from all
three endpoints, for every table state, payload and backend behaviour,
and the table is left untouched (the submit handler returns the state it
was given, and the responses do not depend on the state at all). -/
theorem C3_unauthorized_rejected_everywhere (s : String) (hs : s ≠ "")
    (hdr : Option String) (hbad : hdr ≠ some s) (req : Request)
    (hreq : req.xApiSecret = hdr) (db : DB) (fault : Option String) :
    submit (some s) req db fault =
      ({ success := false, reason := some "unauthorized", status := 401 }, db) ∧
    stats (some s) hdr db fault = (.err "unauthorized", 401) ∧
    list_submissions (some s) hdr db fault = (.err "unauthorized", 401) := by
  have hfail : authFails (some s) hdr = true := by
    simp [authFails, secretTruthy, hs, hbad]
  refine ⟨?_, ?_, ?_⟩
  · simp [submit, hreq, hfail]
  · simp [stats, hfail]
  · simp [list_submissions, hfail]

/-- C3 witness: with secret "s" configured, a request carrying the header
"wrong" gets 401 from all three endpoints and the table is unchanged. -/
theorem C3_witness :
    submit (some "s") { reqAlice with xApiSecret := some "wrong" } db42 none =
      ({ success := false, reason := some "unauthorized", status := 401 }, db42) ∧
    stats (some "s") (some "wrong") db42 none = (.err "unauthorized", 401) ∧
    list_submissions (some "s") (some "wrong") db42 none = (.err "unauthorized", 401) :=
  C3_unauthorized_rejected_everywhere "s" (by decide) (some "wrong") (by decide)
    { reqAlice with xApiSecret := some "wrong" } rfl db42 none

/-- C4: on the validated insert path of the submit handler, a backend
fault that is not an integrity violation always yields
`internal_error`/500 with the table rolled back, and the response is
`already_submitted`/200 exactly when the backend raised no such fault and
the `userId` is a duplicate — no other condition maps to that outcome. -/
theorem C4_insert_error_mapping {apiSecret : Option String} {req : Request}
    {db : DB} {data : List (String × JVal)} {uid uname : JVal} (f : Option String)
    (hauth : authFails apiSecret req.xApiSecret = false)
    (hjson : req.isJson = true)
    (hparse : req.parsedJson = some data)
    (huid : dictGet data "userId" = some uid)
    (hun : dictGet data "username" = some uname)
    (htuid : truthy uid = true)
    (htun : truthy uname = true) :
    (∀ m, f = some m →
      submit apiSecret req db f =
        ({ success := false, reason := some "internal_error", status := 500 }, db)) ∧
    ((submit apiSecret req db f).1 =
        { success := false, reason := some "already_submitted", status := 200 } ↔
      f = none ∧ dupUserId db uid = true) := by
  constructor
  · rintro m rfl
    exact submit_valid_fault m hauth hjson hparse huid hun htuid htun
  · cases f with
    | some m =>
      rw [submit_valid_fault m hauth hjson hparse huid hun htuid htun]
      simp
    | none =>
      by_cases hdup : dupUserId db uid = true
      · rw [submit_valid_dup hauth hjson hparse huid hun htuid htun hdup]
        simp [hdup]
      · have hdup2 : dupUserId db uid = false := by simpa using hdup
        rw [submit_valid_fresh hauth hjson hparse huid hun htuid htun hdup2]
        simp [hdup2]

/-- C4 witness: a backend fault "boom" during the insert for userId 42
yields `internal_error`/500 with the table unchanged, and the response is
not `already_submitted` even though userId 42 is a duplicate. -/
theorem C4_witness :
    (∀ m, (some "boom" : Option String) = some m →
      submit (some "s") reqAlice db42 (some "boom") =
        ({ success := false, reason := some "internal_error", status := 500 }, db42)) ∧
    ((submit (some "s") reqAlice db42 (some "boom")).1 =
        { success := false, reason := some "already_submitted", status := 200 } ↔
      (some "boom" : Option String) = none ∧ dupUserId db42 (.num 42) = true) :=
  @C4_insert_error_mapping (some "s") reqAlice db42
    [("userId", .num 42), ("username", .str "Alice")] (.num 42) (.str "Alice")
    (some "boom") (by decide) rfl rfl (by decide) (by decide) (by decide) (by decide)

/-- C5: an authorized JSON submit request whose `userId` or `username` is
absent or falsy returns `missing_required_fields`/400 and writes no row —
the table is returned unchanged whatever the backend would have done. -/
theorem C5_missing_fields_rejected {apiSecret : Option String} {req : Request}
    {db : DB} (f : Option String) {data : List (String × JVal)}
    (hauth : authFails apiSecret req.xApiSecret = false)
    (hjson : req.isJson = true)
    (hparse : req.parsedJson = some data)
    (hmiss : truthyOpt (dictGet data "userId") = false ∨
             truthyOpt (dictGet data "username") = false) :
    submit apiSecret req db f =
      ({ success := false, reason := some "missing_required_fields", status := 400 }, db) := by
  rcases hmiss with h | h <;> simp [submit, hauth, hjson, hparse, h]

/-- C5 witness: a request whose `userId` is the falsy value `0` gets
`missing_required_fields`/400 and leaves the table unchanged. -/
theorem C5_witness :
    submit none reqZeroId db42 none =
      ({ success := false, reason := some "missing_required_fields", status := 400 }, db42) :=
  C5_missing_fields_rejected none (by decide) rfl rfl (Or.inl (by decide))

/-- C6: the `get_db` transaction wrapper commits and returns the body's
result when the body succeeds, rolls back to the incoming table state and
re-raises the same error when the body fails, and on both exit paths the
last connection event is `close`. -/
theorem C6_get_db_transaction {α : Type} (db : DB)
    (body : DB → Except DbErr (α × DB)) :
    (∀ a db2, body db = .ok (a, db2) →
      get_db db body = (.ok a, db2, [.connect, .commit, .close])) ∧
    (∀ e, body db = .error e →
      get_db db body = (.error e, db, [.connect, .rollback, .close])) ∧
    (get_db db body).2.2.getLast? = some .close := by
  refine ⟨?_, ?_, ?_⟩
  · intro a db2 hb
    simp [get_db, hb]
  · intro e hb
    simp [get_db, hb]
  · cases hb : body db with
    | ok p => rcases p with ⟨a, db2⟩; simp [get_db, hb]
    | error e => simp [get_db, hb]

/-- C6 witness: a succeeding body commits and a failing body rolls back,
each closing the connection last. -/
theorem C6_witness :
    get_db initDB (fun d => Except.ok (7, d)) =
      (Except.ok 7, initDB, [.connect, .commit, .close]) ∧
    get_db initDB (fun _ => (Except.error DbErr.integrityError : Except DbErr (Nat × DB))) =
      (Except.error DbErr.integrityError, initDB, [.connect, .rollback, .close]) :=
  ⟨(C6_get_db_transaction initDB (fun d => Except.ok (7, d))).1 7 initDB rfl,
   (C6_get_db_transaction initDB (fun _ => Except.error DbErr.integrityError)).2.1
     DbErr.integrityError rfl⟩

/-- C7: for every reachable table state, an authorized fault-free
`/api/list` request returns HTTP 200 with the rows sorted by `id`
descending truncated to 100, a `count` equal to the number of returned
records, at most 100 records, strictly descending `id` values, and every
returned record is a stored row (carrying exactly the selected columns
`id`, `username`, `userId`). -/
theorem C7_list_recent {db : DB} (hdb : Reachable db) (apiSecret hdr : Option String)
    (hauth : authFails apiSecret hdr = false) :
    list_submissions apiSecret hdr db none =
      (.page ((sortByIdDesc db.rows).take 100)
        ((sortByIdDesc db.rows).take 100).length, 200) ∧
    ((sortByIdDesc db.rows).take 100).length ≤ 100 ∧
    ((sortByIdDesc db.rows).take 100).Pairwise (fun a b => b.id < a.id) ∧
    ∀ r ∈ (sortByIdDesc db.rows).take 100, r ∈ db.rows := by
  obtain ⟨hlt, _, _⟩ := reachable_inv hdb
  refine ⟨?_, ?_, ?_, ?_⟩
  · simp [list_submissions, hauth, get_db, listRecent]
  · calc ((sortByIdDesc db.rows).take 100).length
        = min 100 (sortByIdDesc db.rows).length := List.length_take ..
      _ ≤ 100 := Nat.min_le_left ..
  · exact List.Pairwise.sublist (List.take_sublist 100 _)
      (sortByIdDesc_strict (hlt.imp fun h => Nat.ne_of_lt h))
  · intro r hr
    have h1 : r ∈ sortByIdDesc db.rows := (List.take_sublist 100 _).subset hr
    exact (sortByIdDesc_perm db.rows).mem_iff.1 h1

/-- C7 witness: listing the one-row reachable table returns that row,
count 1, status 200, in strictly descending order. -/
theorem C7_witness :
    list_submissions (some "s") (some "s") db1 none =
      (.page ((sortByIdDesc db1.rows).take 100)
        ((sortByIdDesc db1.rows).take 100).length, 200) ∧
    ((sortByIdDesc db1.rows).take 100).length ≤ 100 ∧
    ((sortByIdDesc db1.rows).take 100).Pairwise (fun a b => b.id < a.id) ∧
    ∀ r ∈ (sortByIdDesc db1.rows).take 100, r ∈ db1.rows :=
  C7_list_recent (Reachable.step (some "s") reqAlice none Reachable.init)
    (some "s") (some "s") (by decide)

/-- C8: an authorized fault-free `/api/stats` request returns
`{"total_submissions": N}` with HTTP 200 where N is the number of stored
rows; every successful submit call grows that number by exactly one and
every `already_submitted` outcome leaves it unchanged. -/
theorem C8_stats_counts (apiSecret hdr : Option String) (db : DB)
    (hauth : authFails apiSecret hdr = false) :
    stats apiSecret hdr db none = (.totals db.rows.length, 200) ∧
    ∀ a2 req f,
      ((submit a2 req db f).1.success = true →
        (submit a2 req db f).2.rows.length = db.rows.length + 1) ∧
      ((submit a2 req db f).1.reason = some "already_submitted" →
        (submit a2 req db f).2.rows.length = db.rows.length) := by
  constructor
  · simp [stats, hauth, get_db, countAll]
  · intro a2 req f
    rcases submit_spec a2 req db f with ⟨un, ui, _, _, _, heq⟩ | ⟨hsucc, heq⟩
    · constructor
      · intro _
        rw [heq]
        simp
      · intro hreason
        rw [heq] at hreason
        simp at hreason
    · constructor
      · intro hs
        rw [hsucc] at hs
        cases hs
      · intro _
        rw [heq]

/-- C8 witness: stats on the one-row table reports its row count with
status 200, and a duplicate submission leaves that count unchanged. -/
theorem C8_witness :
    stats none none db42 none = (.totals db42.rows.length, 200) ∧
    (submit (some "s") reqBob db42 none).2.rows.length = db42.rows.length :=
  ⟨(C8_stats_counts none none db42 (by decide)).1,
   ((C8_stats_counts none none db42 (by decide)).2 (some "s") reqBob none).2 (by decide)⟩

/-- C9: the startup schema migration is idempotent — it creates the
`feedback` table and the `userId` index only if absent, a run from a
complete schema changes nothing, and a repeat run equals a single run —
and the startup block keeps the process serving whatever failure the
backend injects during the migration. -/
theorem C9_init_idempotent (s : Schema) (o : InitFault) :
    init_db (init_db s) = init_db s ∧
    init_db s = { feedbackTable := true, idxUserId := true } ∧
    (s.feedbackTable = true → s.idxUserId = true → init_db s = s) ∧
    (startup s o).2 = true := by
  obtain ⟨a, b⟩ := s
  cases a <;> cases b <;> cases o <;> decide

/-- C9 witness: rerunning the migration on a complete schema changes
nothing and the process keeps serving. -/
theorem C9_witness :
    init_db (init_db { feedbackTable := true, idxUserId := true }) =
      init_db { feedbackTable := true, idxUserId := true } ∧
    init_db { feedbackTable := true, idxUserId := true } =
      { feedbackTable := true, idxUserId := true } ∧
    (startup { feedbackTable := true, idxUserId := true } InitFault.ok).2 = true :=
  ⟨(C9_init_idempotent ⟨true, true⟩ .ok).1,
   (C9_init_idempotent ⟨true, true⟩ .ok).2.2.1 rfl rfl,
   (C9_init_idempotent ⟨true, true⟩ .ok).2.2.2⟩

/-- C10: configuring the secret as the empty string disables the
authorization gate: no header ever fails the check, and all three
handlers behave exactly as if no secret were configured, because each
tests the truthiness of the secret before comparing headers. -/
theorem C10_empty_secret_disables_auth (hdr : Option String) (req : Request)
    (db : DB) (fault : Option String) :
    authFails (some "") hdr = false ∧
    submit (some "") req db fault = submit none req db fault ∧
    stats (some "") hdr db fault = stats none hdr db fault ∧
    list_submissions (some "") hdr db fault = list_submissions none hdr db fault := by
  refine ⟨by simp [authFails, secretTruthy], ?_, ?_, ?_⟩
  · simp [submit, authFails, secretTruthy]
  · simp [stats, authFails, secretTruthy]
  · simp [list_submissions, authFails, secretTruthy]

end App
